import Mathlib

/-!
Verification of the OpenXR API layer template (window capture / IPD override
samples).  The C++ sources are embedded shallowly:

* float vector arithmetic (`xr::math` helpers `Length`, `Normalize` and the
  `XrVector3f` operators) is read as exact real arithmetic over `ℝ`;
* the OpenXR runtime that the layer chains to is modelled as an oracle
  function supplied as an argument, so that the arguments the layer passes
  down and the values the runtime hands back are both observable;
* output parameters written through pointers become explicit result fields,
  and the mutable member state of the layer object is threaded explicitly.
-/

namespace OpenXRLayer

/-- `XrResult` is a C enum; error codes are negative, success codes are
nonnegative (`XR_SUCCEEDED(result)` is `(result) >= 0`). -/
abbrev XrResult := Int

/-- `XR_SUCCESS = 0`. -/
def XR_SUCCESS : XrResult := 0

/-- `XR_ERROR_VALIDATION_FAILURE = -1`. -/
def XR_ERROR_VALIDATION_FAILURE : XrResult := -1

/-- `XR_ERROR_LAYER_INVALID = -23`. -/
def XR_ERROR_LAYER_INVALID : XrResult := -23

/-- `XR_SUCCEEDED(result)` expands to `((result) >= 0)`. -/
abbrev XR_SUCCEEDED (r : XrResult) : Prop := 0 ≤ r

/-- The `XrStructureType` tags that the layer sources inspect; every other
tag is collapsed into `unknownType`. -/
inductive XrStructureType where
  | instanceCreateInfo
  | systemGetInfo
  | frameEndInfo
  | viewLocateInfo
  | viewState
  | compositionLayerProjection
  | compositionLayerQuad
  | unknownType (n : Nat)
deriving DecidableEq

/-- `XrViewConfigurationType`; the sources only test for
`XR_VIEW_CONFIGURATION_TYPE_PRIMARY_STEREO`. -/
inductive XrViewConfigurationType where
  | primaryMono
  | primaryStereo
  | otherConfig (n : Nat)
deriving DecidableEq

/-- `XrVector3f`, with the float components read as exact reals. -/
@[ext]
structure XrVector3f where
  x : ℝ
  y : ℝ
  z : ℝ

namespace XrVector3f

instance : Zero XrVector3f := ⟨⟨0, 0, 0⟩⟩

instance : Add XrVector3f := ⟨fun a b => ⟨a.x + b.x, a.y + b.y, a.z + b.z⟩⟩

instance : Sub XrVector3f := ⟨fun a b => ⟨a.x - b.x, a.y - b.y, a.z - b.z⟩⟩

instance : Neg XrVector3f := ⟨fun a => ⟨-a.x, -a.y, -a.z⟩⟩

instance : SMul ℝ XrVector3f := ⟨fun c a => ⟨c * a.x, c * a.y, c * a.z⟩⟩

@[simp] theorem zero_x : (0 : XrVector3f).x = 0 := rfl
@[simp] theorem zero_y : (0 : XrVector3f).y = 0 := rfl
@[simp] theorem zero_z : (0 : XrVector3f).z = 0 := rfl
@[simp] theorem add_x (a b : XrVector3f) : (a + b).x = a.x + b.x := rfl
@[simp] theorem add_y (a b : XrVector3f) : (a + b).y = a.y + b.y := rfl
@[simp] theorem add_z (a b : XrVector3f) : (a + b).z = a.z + b.z := rfl
@[simp] theorem sub_x (a b : XrVector3f) : (a - b).x = a.x - b.x := rfl
@[simp] theorem sub_y (a b : XrVector3f) : (a - b).y = a.y - b.y := rfl
@[simp] theorem sub_z (a b : XrVector3f) : (a - b).z = a.z - b.z := rfl
@[simp] theorem smul_x (c : ℝ) (a : XrVector3f) : (c • a).x = c * a.x := rfl
@[simp] theorem smul_y (c : ℝ) (a : XrVector3f) : (c • a).y = c * a.y := rfl
@[simp] theorem smul_z (c : ℝ) (a : XrVector3f) : (c • a).z = c * a.z := rfl

end XrVector3f

/-- `Length` from `XrMath.h`: the Euclidean norm
`sqrt(x*x + y*y + z*z)` of a vector. -/
noncomputable def Length (v : XrVector3f) : ℝ :=
  Real.sqrt (v.x * v.x + v.y * v.y + v.z * v.z)

/-- `Normalize` from `XrMath.h` (`XMVector3Normalize`): the vector scaled by
the reciprocal of its length.  A zero-length vector normalizes to the zero
vector, which matches Lean's `0⁻¹ = 0` convention. -/
noncomputable def Normalize (v : XrVector3f) : XrVector3f :=
  (Length v)⁻¹ • v

/-- `XrQuaternionf` (never inspected by the layer's math, carried along). -/
structure XrQuaternionf where
  x : ℝ
  y : ℝ
  z : ℝ
  w : ℝ

/-- `XrPosef`. -/
structure XrPosef where
  orientation : XrQuaternionf
  position : XrVector3f

theorem Length_nonneg (v : XrVector3f) : 0 ≤ Length v := Real.sqrt_nonneg _

theorem Length_eq_zero_iff (v : XrVector3f) : Length v = 0 ↔ v = 0 := by
  unfold Length
  rw [Real.sqrt_eq_zero']
  constructor
  · intro h
    have hx : v.x * v.x = 0 ∧ v.y * v.y = 0 ∧ v.z * v.z = 0 := by
      constructor
      · nlinarith [mul_self_nonneg v.x, mul_self_nonneg v.y, mul_self_nonneg v.z]
      constructor
      · nlinarith [mul_self_nonneg v.x, mul_self_nonneg v.y, mul_self_nonneg v.z]
      · nlinarith [mul_self_nonneg v.x, mul_self_nonneg v.y, mul_self_nonneg v.z]
    ext
    · exact mul_self_eq_zero.mp hx.1
    · exact mul_self_eq_zero.mp hx.2.1
    · exact mul_self_eq_zero.mp hx.2.2
  · intro h
    subst h
    simp

theorem Length_pos_of_ne_zero {v : XrVector3f} (h : v ≠ 0) : 0 < Length v := by
  rcases lt_or_eq_of_le (Length_nonneg v) with h' | h'
  · exact h'
  · exact absurd ((Length_eq_zero_iff v).mp h'.symm) h

theorem Length_smul (c : ℝ) (v : XrVector3f) : Length (c • v) = |c| * Length v := by
  unfold Length
  have : (c • v).x * (c • v).x + (c • v).y * (c • v).y + (c • v).z * (c • v).z
      = c ^ 2 * (v.x * v.x + v.y * v.y + v.z * v.z) := by
    simp
    ring
  rw [this, Real.sqrt_mul (sq_nonneg c), Real.sqrt_sq_eq_abs]

theorem Length_normalize {v : XrVector3f} (h : v ≠ 0) : Length (Normalize v) = 1 := by
  unfold Normalize
  rw [Length_smul]
  have hp := Length_pos_of_ne_zero h
  rw [abs_of_nonneg (le_of_lt (inv_pos.mpr hp))]
  field_simp

theorem Normalize_ne_zero {v : XrVector3f} (h : v ≠ 0) : Normalize v ≠ 0 := by
  intro hz
  have := Length_normalize h
  rw [hz] at this
  rw [(Length_eq_zero_iff (0 : XrVector3f)).mpr rfl] at this
  norm_num at this

theorem smul_Length_normalize {v : XrVector3f} (h : v ≠ 0) :
    Length v • Normalize v = v := by
  unfold Normalize
  have hp := (Length_pos_of_ne_zero h).ne'
  ext <;> simp <;> field_simp

theorem Normalize_of_unit {v : XrVector3f} (h : Length v = 1) : Normalize v = v := by
  unfold Normalize
  rw [h]
  ext <;> simp

theorem Normalize_smul (c : ℝ) (v : XrVector3f) :
    Normalize (c • v) = (c * |c|⁻¹) • Normalize v := by
  unfold Normalize
  rw [Length_smul, mul_inv]
  ext <;> simp <;> ring

/-- `IPDOverride = 0.09f`: the IPD the layer forces onto the application,
read exactly as `9/100`. -/
noncomputable def IPDOverride : ℝ := 9 / 100

/-- `OpenXrLayer::overrideIPD` (IPD-override layer).  The C++ function
mutates `leftEye` and `rightEye` through references and returns the length
of the original separation vector; here it returns the two updated poses
together with that length:

    const XrVector3f vec = leftEye.position - rightEye.position;
    const XrVector3f center = leftEye.position + (vec * 0.5f);
    const XrVector3f offset = Normalize(vec) * (IPD * 0.5f);
    leftEye.position = center - offset;
    rightEye.position = center + offset;
    return Length(vec);
-/
noncomputable def overrideIPD (leftEye rightEye : XrPosef) (IPD : ℝ) :
    XrPosef × XrPosef × ℝ :=
  let vec := leftEye.position - rightEye.position
  let center := leftEye.position + (0.5 : ℝ) • vec
  let offset := (IPD * 0.5) • Normalize vec
  ({ leftEye with position := center - offset },
   { rightEye with position := center + offset },
   Length vec)

theorem overrideIPD_left (l r : XrPosef) (ipd : ℝ) :
    (overrideIPD l r ipd).1 =
      { l with position :=
          l.position + (0.5 : ℝ) • (l.position - r.position)
            - (ipd * 0.5) • Normalize (l.position - r.position) } := rfl

theorem overrideIPD_right (l r : XrPosef) (ipd : ℝ) :
    (overrideIPD l r ipd).2.1 =
      { r with position :=
          l.position + (0.5 : ℝ) • (l.position - r.position)
            + (ipd * 0.5) • Normalize (l.position - r.position) } := rfl

theorem overrideIPD_ret (l r : XrPosef) (ipd : ℝ) :
    (overrideIPD l r ipd).2.2 = Length (l.position - r.position) := rfl

/-- The difference of the two updated eye positions is the overridden IPD
along the (reversed) original separation direction. -/
theorem overrideIPD_sub (l r : XrPosef) (ipd : ℝ) :
    (overrideIPD l r ipd).1.position - (overrideIPD l r ipd).2.1.position
      = (-ipd) • Normalize (l.position - r.position) := by
  rw [overrideIPD_left, overrideIPD_right]
  ext <;> simp <;> ring

theorem position_sub_ne_zero {l r : XrPosef} (h : l.position ≠ r.position) :
    l.position - r.position ≠ 0 := by
  intro h0
  apply h
  ext
  · have := congrArg XrVector3f.x h0; simpa [sub_eq_zero] using this
  · have := congrArg XrVector3f.y h0; simpa [sub_eq_zero] using this
  · have := congrArg XrVector3f.z h0; simpa [sub_eq_zero] using this

/-- The distance between the two updated eye positions equals the requested
IPD, whenever the original positions are distinct and the IPD nonnegative. -/
theorem overrideIPD_separation (l r : XrPosef) (ipd : ℝ)
    (h : l.position ≠ r.position) (hipd : 0 ≤ ipd) :
    Length ((overrideIPD l r ipd).1.position - (overrideIPD l r ipd).2.1.position)
      = ipd := by
  rw [overrideIPD_sub, Length_smul, Length_normalize (position_sub_ne_zero h),
    abs_neg, abs_of_nonneg hipd]
  ring

/-- The sum (twice the midpoint) of the updated eye positions: the new
midpoint is the `center` computed by the code, which is the original
midpoint translated by the whole separation vector `leftEye - rightEye`
(the code computes `leftEye.position + vec * 0.5f`, not the true midpoint
`rightEye.position + vec * 0.5f`). -/
theorem overrideIPD_sum (l r : XrPosef) (ipd : ℝ) :
    (overrideIPD l r ipd).1.position + (overrideIPD l r ipd).2.1.position
      = (l.position + r.position) + (2 : ℝ) • (l.position - r.position) := by
  rw [overrideIPD_left, overrideIPD_right]
  ext <;> simp <;> ring

theorem overrideIPD_orientation_left (l r : XrPosef) (ipd : ℝ) :
    (overrideIPD l r ipd).1.orientation = l.orientation := rfl

theorem overrideIPD_orientation_right (l r : XrPosef) (ipd : ℝ) :
    (overrideIPD l r ipd).2.1.orientation = r.orientation := rfl

theorem Length_xaxis (t : ℝ) : Length ⟨t, 0, 0⟩ = |t| := by
  unfold Length
  simp only [mul_zero, add_zero]
  rw [show t * t = t ^ 2 by ring, Real.sqrt_sq_eq_abs]

theorem Normalize_xaxis (t : ℝ) : Normalize ⟨t, 0, 0⟩ = ⟨|t|⁻¹ * t, 0, 0⟩ := by
  unfold Normalize
  rw [Length_xaxis]
  ext <;> simp

/-- `overrideIPD` evaluated on two poses whose positions lie on the x axis. -/
theorem overrideIPD_xaxis (qL qR : XrQuaternionf) (a b ipd : ℝ) :
    overrideIPD ⟨qL, ⟨a, 0, 0⟩⟩ ⟨qR, ⟨b, 0, 0⟩⟩ ipd
      = (⟨qL, ⟨a + (a - b) / 2 - ipd / 2 * (|a - b|⁻¹ * (a - b)), 0, 0⟩⟩,
         ⟨qR, ⟨a + (a - b) / 2 + ipd / 2 * (|a - b|⁻¹ * (a - b)), 0, 0⟩⟩,
         |a - b|) := by
  have hsub : (XrVector3f.mk a 0 0) - ⟨b, 0, 0⟩ = ⟨a - b, 0, 0⟩ := by
    ext <;> simp
  simp only [overrideIPD, hsub, Normalize_xaxis, Length_xaxis, Prod.mk.injEq]
  refine ⟨?_, ?_, trivial⟩
  all_goals congr 1
  all_goals ext <;> simp <;> ring

/-- A unit quaternion and sample stereo poses used as concrete inputs: the
left eye at the origin and the right eye one meter along negative x. -/
def sampleQuat : XrQuaternionf := ⟨0, 0, 0, 1⟩

def samplePoseL : XrPosef := ⟨sampleQuat, ⟨0, 0, 0⟩⟩

def samplePoseR : XrPosef := ⟨sampleQuat, ⟨-1, 0, 0⟩⟩

theorem samplePose_position_ne : samplePoseL.position ≠ samplePoseR.position := by
  intro h
  have := congrArg XrVector3f.x h
  simp [samplePoseL, samplePoseR] at this

/-- The first (locate-time) application of `overrideIPD` on the sample
poses: separation `1` is reported, the poses end up `9cm` apart around the
(shifted) center at `x = 1/2`. -/
theorem overrideIPD_sample_step1 :
    overrideIPD samplePoseL samplePoseR IPDOverride
      = (⟨sampleQuat, ⟨91 / 200, 0, 0⟩⟩, ⟨sampleQuat, ⟨109 / 200, 0, 0⟩⟩, 1) := by
  rw [samplePoseL, samplePoseR, overrideIPD_xaxis]
  have h1 : |(0 : ℝ) - -1| = 1 := by norm_num
  rw [h1]
  norm_num [IPDOverride, Prod.ext_iff, XrPosef.mk.injEq, XrVector3f.mk.injEq]

/-- The second (restore-time) application of `overrideIPD` on the output of
the first, using the reported separation `1`: the left eye lands at
`x = 91/100`, not back at the origin. -/
theorem overrideIPD_sample_step2 :
    overrideIPD ⟨sampleQuat, ⟨91 / 200, 0, 0⟩⟩ ⟨sampleQuat, ⟨109 / 200, 0, 0⟩⟩ 1
      = (⟨sampleQuat, ⟨91 / 100, 0, 0⟩⟩, ⟨sampleQuat, ⟨-9 / 100, 0, 0⟩⟩, 9 / 100) := by
  rw [overrideIPD_xaxis]
  have h1 : |(91 : ℝ) / 200 - 109 / 200| = 9 / 100 := by
    rw [show (91 : ℝ) / 200 - 109 / 200 = -(9 / 100) by norm_num, abs_neg,
      abs_of_nonneg (by norm_num)]
  rw [h1]
  norm_num [Prod.ext_iff, XrPosef.mk.injEq, XrVector3f.mk.injEq]

/-- `XrFovf`, carried along unmodified by the layer. -/
structure XrFovf where
  angleLeft : ℝ
  angleRight : ℝ
  angleUp : ℝ
  angleDown : ℝ

/-- `XrView`: a pose and a field of view. -/
structure XrView where
  pose : XrPosef
  fov : XrFovf

/-- `XrViewLocateInfo` (the fields the layer reads). -/
structure XrViewLocateInfo where
  type : XrStructureType
  viewConfigurationType : XrViewConfigurationType
  displayTime : Int
  space : Nat

/-- `XrFrameEndInfo`, generic in the element type of its layer list so the
same structure serves the application-facing list and the chained list.  In
C the list is a pointer plus `layerCount`; here the list itself carries the
count (`layerCount = layers.length`). -/
structure XrFrameEndInfo (L : Type) where
  type : XrStructureType
  displayTime : Int
  environmentBlendMode : Nat
  layers : List L

/-! ## The IPD-override layer (second `OpenXrLayer` variant)

Its mutable state is the single member `m_lastSeenIPD : std::optional<float>`,
modelled as `Option ℝ`.  `GetAsyncKeyState(VK_END) < 0` is an external input
and becomes the boolean argument `isDeactivateKeyPressed`. -/

namespace IPDLayer

/-- The argument tuple the chained runtime's `xrLocateViews` receives,
including the contents of the caller's `views` buffer at call time (the
buffer is passed by pointer, so the runtime sees it unpatched). -/
structure LocateCall where
  session : Nat
  viewLocateInfo : XrViewLocateInfo
  viewStateType : XrStructureType
  viewCapacityInput : Nat
  viewsIn : List XrView

/-- What the chained runtime's `xrLocateViews` writes back through the
output pointers, plus its return value. -/
structure LocateReturn where
  result : XrResult
  viewStateFlags : Nat
  viewCountOutput : Nat
  viewsOut : List XrView

/-- Everything observable after the layer's `xrLocateViews` returns: the
values handed back to the application, the new `m_lastSeenIPD`, and the
argument tuple passed to the chained runtime (`none` when the chained
runtime was never invoked). -/
structure LocateOutcome where
  result : XrResult
  viewStateFlags : Nat
  viewCountOutput : Nat
  views : List XrView
  lastSeenIPD : Option ℝ
  chainedCall : Option LocateCall

/-- The in-buffer patch performed at `capture.h:324`:
`overrideIPD(views[Left].pose, views[Right].pose, ipd)` updates the first
two views' poses in place and yields the original separation length.  The
code asserts `*viewCountOutput == xr::StereoView::Count`, so a buffer with
fewer than two views is unreachable on the patched path; it is left
unchanged here (with length `0` returned) to keep the function total. -/
noncomputable def applyStereoOverride (ipd : ℝ) : List XrView → List XrView × ℝ
  | v0 :: v1 :: rest =>
      ({ v0 with pose := (overrideIPD v0.pose v1.pose ipd).1 } ::
       { v1 with pose := (overrideIPD v0.pose v1.pose ipd).2.1 } :: rest,
       (overrideIPD v0.pose v1.pose ipd).2.2)
  | vs => (vs, 0)

/-- `OpenXrLayer::xrLocateViews` of the IPD-override layer:

* both `type` fields are validated first (`XR_ERROR_VALIDATION_FAILURE`
  without touching anything);
* the chained runtime (`OpenXrApi::xrLocateViews`) is invoked with the
  caller's arguments unchanged;
* on `XR_SUCCEEDED(result) && viewCapacityInput`, for the
  `PRIMARY_STEREO` configuration, the returned views are patched with
  `IPDOverride` and the reported separation is stored in `m_lastSeenIPD`
  (or, with the VK_END key held, `m_lastSeenIPD` is reset instead). -/
noncomputable def xrLocateViews (rt : LocateCall → LocateReturn)
    (isDeactivateKeyPressed : Bool) (lastSeenIPD : Option ℝ)
    (session : Nat) (viewLocateInfo : XrViewLocateInfo)
    (viewStateType : XrStructureType) (viewStateFlagsIn : Nat)
    (viewCapacityInput : Nat) (viewCountIn : Nat) (viewsIn : List XrView) :
    LocateOutcome :=
  if viewLocateInfo.type ≠ XrStructureType.viewLocateInfo ∨
      viewStateType ≠ XrStructureType.viewState then
    { result := XR_ERROR_VALIDATION_FAILURE, viewStateFlags := viewStateFlagsIn,
      viewCountOutput := viewCountIn, views := viewsIn,
      lastSeenIPD := lastSeenIPD, chainedCall := none }
  else
    let call : LocateCall :=
      ⟨session, viewLocateInfo, viewStateType, viewCapacityInput, viewsIn⟩
    let ret := rt call
    if XR_SUCCEEDED ret.result ∧ viewCapacityInput ≠ 0 then
      if viewLocateInfo.viewConfigurationType = XrViewConfigurationType.primaryStereo then
        if ¬ isDeactivateKeyPressed then
          { result := ret.result, viewStateFlags := ret.viewStateFlags,
            viewCountOutput := ret.viewCountOutput,
            views := (applyStereoOverride IPDOverride ret.viewsOut).1,
            lastSeenIPD := some (applyStereoOverride IPDOverride ret.viewsOut).2,
            chainedCall := some call }
        else
          { result := ret.result, viewStateFlags := ret.viewStateFlags,
            viewCountOutput := ret.viewCountOutput, views := ret.viewsOut,
            lastSeenIPD := none, chainedCall := some call }
      else
        { result := ret.result, viewStateFlags := ret.viewStateFlags,
          viewCountOutput := ret.viewCountOutput, views := ret.viewsOut,
          lastSeenIPD := lastSeenIPD, chainedCall := some call }
    else
      { result := ret.result, viewStateFlags := ret.viewStateFlags,
        viewCountOutput := ret.viewCountOutput, views := ret.viewsOut,
        lastSeenIPD := lastSeenIPD, chainedCall := some call }

/-- `XrCompositionLayerProjectionView` (the fields the layer copies). -/
structure XrCompositionLayerProjectionView where
  pose : XrPosef
  fov : XrFovf
  subImage : Nat

/-- `XrCompositionLayerProjection`: flags, space, and its views (in C a
pointer plus `viewCount`; the list carries the count). -/
structure XrCompositionLayerProjection where
  layerFlags : Nat
  space : Nat
  views : List XrCompositionLayerProjectionView

/-- A submitted composition layer as the IPD layer's `xrEndFrame` sees it:
either a projection layer (tag `XR_TYPE_COMPOSITION_LAYER_PROJECTION`) or
any other layer, kept opaque. -/
inductive IPDLayerEntry where
  | projection (p : XrCompositionLayerProjection)
  | otherLayer (type : XrStructureType) (payload : Nat)

/-- The copy-and-patch of one stereo projection layer performed at
`capture.h:383-411`: copies of the projection struct and of its two views
are made, `overrideIPD` restores the stored separation on the copies, and
the copy replaces the original in the chained list. -/
noncomputable def patchProjectionLayer (d : ℝ) (p : XrCompositionLayerProjection) :
    XrCompositionLayerProjection :=
  match p.views with
  | [v0, v1] =>
      { p with views :=
          [{ v0 with pose := (overrideIPD v0.pose v1.pose d).1 },
           { v1 with pose := (overrideIPD v0.pose v1.pose d).2.1 }] }
  | _ => p

/-- Per-layer selection in the `xrEndFrame` loop: a projection layer with
`viewCount == xr::StereoView::Count` is replaced by its patched copy when
`m_lastSeenIPD` holds a value; every other layer is taken unmodified. -/
noncomputable def endFramePatchLayer (st : Option ℝ) (l : IPDLayerEntry) : IPDLayerEntry :=
  match l, st with
  | IPDLayerEntry.projection p, some d =>
      if p.views.length = 2 then IPDLayerEntry.projection (patchProjectionLayer d p)
      else IPDLayerEntry.projection p
  | l, _ => l

/-- The loop of `xrEndFrame`: walks the submitted layer pointers in order,
failing with `none` (`XR_ERROR_LAYER_INVALID`) at the first null pointer,
otherwise collecting the (possibly patched) layers in order. -/
noncomputable def buildChainLayers (st : Option ℝ) :
    List (Option IPDLayerEntry) → Option (List IPDLayerEntry)
  | [] => some []
  | none :: _ => none
  | some l :: rest =>
      (buildChainLayers st rest).map (fun ls => endFramePatchLayer st l :: ls)

/-- `OpenXrLayer::xrEndFrame` of the IPD-override layer: validates the
`type` field, builds the new layer list (copies are patched, the
application's structures are only read), and submits a chained
`XrFrameEndInfo` carrying that list to the chained runtime.  The second
component is the chained info (`none` when the chained runtime was not
invoked). -/
noncomputable def xrEndFrame (rt : XrFrameEndInfo IPDLayerEntry → XrResult)
    (lastSeenIPD : Option ℝ) (info : XrFrameEndInfo (Option IPDLayerEntry)) :
    XrResult × Option (XrFrameEndInfo IPDLayerEntry) :=
  if info.type ≠ XrStructureType.frameEndInfo then
    (XR_ERROR_VALIDATION_FAILURE, none)
  else
    match buildChainLayers lastSeenIPD info.layers with
    | none => (XR_ERROR_LAYER_INVALID, none)
    | some ls =>
        let chained : XrFrameEndInfo IPDLayerEntry :=
          { type := info.type, displayTime := info.displayTime,
            environmentBlendMode := info.environmentBlendMode, layers := ls }
        (rt chained, some chained)

theorem buildChainLayers_map_some (st : Option ℝ) (ls : List IPDLayerEntry) :
    buildChainLayers st (ls.map some) = some (ls.map (endFramePatchLayer st)) := by
  induction ls with
  | nil => rfl
  | cons l rest ih => simp [buildChainLayers, ih]

end IPDLayer

/-! ## The window-capture layer (`layer.cpp`)

Its `xrEndFrame` copies the application's layer pointers into a vector,
optionally appends one overlay quad sourced from the captured window, and
submits the new list.  The composition framework, the per-session data it
stores, and the Windows/D3D-dependent outcome of
`SessionData::captureOverlayWindow` are modelled as oracle inputs. -/

namespace CaptureLayer

/-- `XR_FORM_FACTOR_HEAD_MOUNTED_DISPLAY = 1`. -/
def XR_FORM_FACTOR_HEAD_MOUNTED_DISPLAY : Nat := 1

/-- `XR_COMPOSITION_LAYER_BLEND_TEXTURE_SOURCE_ALPHA_BIT = 0x00000002`. -/
def XR_COMPOSITION_LAYER_BLEND_TEXTURE_SOURCE_ALPHA_BIT : Nat := 2

/-- `XR_EYE_VISIBILITY_BOTH = 0`. -/
def XR_EYE_VISIBILITY_BOTH : Nat := 0

/-- `XrInstanceCreateInfo`: only the `type` field steers control flow; the
application info is merely logged and kept opaque. -/
structure XrInstanceCreateInfo where
  type : XrStructureType
  applicationInfo : Nat

/-- The layer members touched by `xrCreateInstance`. -/
structure CreateState where
  bypassApiLayer : Bool
  compositionFrameworkFactory : Option Nat
deriving DecidableEq

/-- Observable effects of `xrCreateInstance`: result, member state after,
whether `OpenXrApi::xrCreateInstance` was invoked, and whether
`killProcessByName(OverlayProcessName)` ran. -/
structure CreateInstanceOutcome where
  result : XrResult
  state : CreateState
  chainedCreateInvoked : Bool
  killedOverlayProcess : Bool
deriving DecidableEq

/-- `OpenXrLayer::xrCreateInstance` (`layer.cpp:126-180`): validates the
`type` field, resolves the chained create, and (unless bypassed) installs
the composition framework factory and kills any stale overlay process.
The freshly created factory is the oracle argument `newFactory`. -/
def xrCreateInstance (newFactory : Nat) (st : CreateState)
    (createInfo : XrInstanceCreateInfo) : CreateInstanceOutcome :=
  if createInfo.type ≠ XrStructureType.instanceCreateInfo then
    ⟨XR_ERROR_VALIDATION_FAILURE, st, false, false⟩
  else if st.bypassApiLayer then
    ⟨XR_SUCCESS, st, true, false⟩
  else
    ⟨XR_SUCCESS, { st with compositionFrameworkFactory := some newFactory },
      true, true⟩

/-- `XrSystemGetInfo`. -/
structure XrSystemGetInfo where
  type : XrStructureType
  formFactor : Nat

/-- The chained `xrGetSystem`'s result and the system id it writes. -/
structure GetSystemReturn where
  result : XrResult
  systemId : Nat

/-- Observable effects of `xrGetSystem`: result, the caller's `*systemId`
buffer after the call, the `wasSystemNameLogged` static after the call, and
whether the chained runtime was invoked. -/
structure GetSystemOutcome where
  result : XrResult
  systemId : Nat
  wasSystemNameLogged : Bool
  chainedGetSystemInvoked : Bool
deriving DecidableEq

/-- `OpenXrLayer::xrGetSystem` (`layer.cpp:183-208`): validates the `type`
field, invokes the chained runtime, and on a successful HMD query logs the
system name once. -/
def xrGetSystem (rt : XrSystemGetInfo → GetSystemReturn)
    (wasSystemNameLogged : Bool) (getInfo : XrSystemGetInfo)
    (systemIdIn : Nat) : GetSystemOutcome :=
  if getInfo.type ≠ XrStructureType.systemGetInfo then
    ⟨XR_ERROR_VALIDATION_FAILURE, systemIdIn, wasSystemNameLogged, false⟩
  else
    let ret := rt getInfo
    if XR_SUCCEEDED ret.result ∧
        getInfo.formFactor = XR_FORM_FACTOR_HEAD_MOUNTED_DISPLAY then
      ⟨ret.result, ret.systemId, true, true⟩
    else
      ⟨ret.result, ret.systemId, wasSystemNameLogged, true⟩

/-- `XrExtent2Df` with exact-real components. -/
structure XrExtent2Df where
  width : ℝ
  height : ℝ

/-- `XrCompositionLayerQuad` (the fields the layer fills in). -/
structure XrCompositionLayerQuad where
  type : XrStructureType
  layerFlags : Nat
  space : Nat
  eyeVisibility : Nat
  subImage : Nat
  pose : XrPosef
  size : XrExtent2Df

/-- The `SessionData` fields read when building the overlay quad.  Their
values at the time of the call (maintained by the constructor and by
`captureOverlayWindow`) are oracle inputs. -/
structure SessionData where
  localSpace : Nat
  overlaySubImage : Nat
  overlayPose : XrPosef
  overlaySize : XrExtent2Df

/-- The composition framework for the session: the session data currently
stored (`none` on the first frame), the fresh session data a first-time
`SessionData` construction would produce, and whether
`captureOverlayWindow` succeeds this frame. -/
structure CompositionEnv where
  sessionData : Option SessionData
  freshSessionData : SessionData
  captureSucceeds : Bool

/-- The overlay quad built at `layer.cpp:243-248` from the session data. -/
def overlayQuadFor (sd : SessionData) : XrCompositionLayerQuad :=
  { type := XrStructureType.compositionLayerQuad,
    layerFlags := XR_COMPOSITION_LAYER_BLEND_TEXTURE_SOURCE_ALPHA_BIT,
    space := sd.localSpace,
    eyeVisibility := XR_EYE_VISIBILITY_BOTH,
    subImage := sd.overlaySubImage,
    pose := sd.overlayPose,
    size := sd.overlaySize }

/-- Observable effects of the capture layer's `xrEndFrame`: its result, the
chained `XrFrameEndInfo` (`none` when the chained runtime was not invoked),
and the session data stored after the call.  Application layers stay
opaque (`α`); the chained list element type `α ⊕ XrCompositionLayerQuad`
distinguishes the application's pointers from the appended overlay. -/
structure EndFrameOutcome (α : Type) where
  result : XrResult
  chained : Option (XrFrameEndInfo (Sum α XrCompositionLayerQuad))
  sessionDataAfter : Option SessionData

/-- `OpenXrLayer::xrEndFrame` of the window-capture layer
(`layer.cpp:211-258`): validates the `type` field, copies the submitted
layer pointers in order, appends the overlay quad exactly when a
composition framework exists and `captureOverlayWindow` succeeds, updates
`layerCount` to the new list's size, and returns the chained runtime's
result. -/
def captureEndFrame {α : Type}
    (rt : XrFrameEndInfo (Sum α XrCompositionLayerQuad) → XrResult)
    (env : Option CompositionEnv) (info : XrFrameEndInfo α) :
    EndFrameOutcome α :=
  if info.type ≠ XrStructureType.frameEndInfo then
    { result := XR_ERROR_VALIDATION_FAILURE, chained := none,
      sessionDataAfter := env.bind (fun e => e.sessionData) }
  else
    match env with
    | none =>
        let chained : XrFrameEndInfo (Sum α XrCompositionLayerQuad) :=
          { type := info.type, displayTime := info.displayTime,
            environmentBlendMode := info.environmentBlendMode,
            layers := info.layers.map Sum.inl }
        { result := rt chained, chained := some chained,
          sessionDataAfter := none }
    | some e =>
        let sd := e.sessionData.getD e.freshSessionData
        let chained : XrFrameEndInfo (Sum α XrCompositionLayerQuad) :=
          { type := info.type, displayTime := info.displayTime,
            environmentBlendMode := info.environmentBlendMode,
            layers := info.layers.map Sum.inl ++
              (if e.captureSucceeds then [Sum.inr (overlayQuadFor sd)] else []) }
        { result := rt chained, chained := some chained,
          sessionDataAfter := some sd }

end CaptureLayer

/-! ## The transparency compute shader (`TransparencyShaderHlsl`)

HLSL float arithmetic on exactly representable constants is modelled over
`ℚ`; the shader only compares and copies components. -/

namespace TransparencyPass

/-- An HLSL `float3` rgb triple. -/
structure HlslFloat3 where
  r : ℚ
  g : ℚ
  b : ℚ
deriving DecidableEq

/-- An HLSL `float4` rgba texel. -/
structure HlslFloat4 where
  r : ℚ
  g : ℚ
  b : ℚ
  a : ℚ
deriving DecidableEq

/-- The `config : register(b0)` constant buffer
(`TransparencyShaderConstants`). -/
structure TransparencyShaderConstants where
  transparentColor : HlslFloat3
  transparencyLevel : ℚ
deriving DecidableEq

/-- The body of `TransparencyShaderHlsl`'s `main` for one thread:

    float alpha = (all(in_texture[pos].rgb == TransparentColor)) ? Transparency : 1.f;
    out_texture[pos] = float4(in_texture[pos].rgb, alpha);

`all(a == b)` on `float3` is componentwise equality conjoined. -/
def transparencyShaderMain (cfg : TransparencyShaderConstants)
    (inTexel : HlslFloat4) : HlslFloat4 :=
  let alpha :=
    if inTexel.r = cfg.transparentColor.r ∧ inTexel.g = cfg.transparentColor.g ∧
        inTexel.b = cfg.transparentColor.b then
      cfg.transparencyLevel
    else 1
  ⟨inTexel.r, inTexel.g, inTexel.b, alpha⟩

/-- The constant buffer contents uploaded by the `SessionData` constructor
(`layer.cpp:300-309`): `transparencyParams{}` value-initializes every
member to zero, then only `transparentColor` is assigned
`{255/255.f, 0/255.f, 255/255.f}`, so `transparencyLevel` stays `0`. -/
def sessionTransparencyParams : TransparencyShaderConstants :=
  { transparentColor := ⟨255 / 255, 0 / 255, 255 / 255⟩,
    transparencyLevel := 0 }

end TransparencyPass

/-! ## `CaptureWindowWinRT` and the dispatch arithmetic -/

namespace CaptureWinRT

/-- `DXGI_FORMAT_R8G8B8A8_UNORM = 28`; the constructor passes it through
`static_cast<winrt::Windows::Graphics::DirectX::DirectXPixelFormat>`. -/
def DXGI_FORMAT_R8G8B8A8_UNORM : Nat := 28

/-- The arguments of
`Direct3D11CaptureFramePool::CreateFreeThreaded(device, format, buffers, size)`
that determine the pool (the interop device is opaque). -/
structure FramePoolCreateArgs where
  pixelFormat : Nat
  numberOfBuffers : Nat
  size : Int × Int
deriving DecidableEq

/-- The frame pool created by the `CaptureWindowWinRT` constructor
(`capture.h:74-78`) for a capture item of size `itemSize`
(`m_item.Size()`). -/
def captureWindowWinRTFramePool (itemSize : Int × Int) : FramePoolCreateArgs :=
  { pixelFormat := DXGI_FORMAT_R8G8B8A8_UNORM,
    numberOfBuffers := 2,
    size := itemSize }

end CaptureWinRT

namespace DispatchMath

/-- One dispatch dimension at `layer.cpp:493-495`:
`(unsigned int)std::ceil(windowSharedSurfaceDesc.Width / 8)`.
`Width` is an unsigned integer, so `Width / 8` is unsigned integer
(flooring) division performed before `std::ceil`, which therefore receives
a whole number and is a no-op. -/
def dispatchGroupCount (w : Nat) : Nat :=
  (Int.ceil ((w / 8 : Nat) : ℚ)).toNat

/-- `[numthreads(8, 8, 1)]`: each thread group covers 8 texels per
dimension. -/
def transparencyThreadsPerGroup : Nat := 8

/-- Texel `(x, y)` is visited by some thread of the
`Dispatch(groupsX, groupsY, 1)` grid. -/
def texelDispatched (W H x y : Nat) : Prop :=
  x < transparencyThreadsPerGroup * dispatchGroupCount W ∧
  y < transparencyThreadsPerGroup * dispatchGroupCount H

instance (W H x y : Nat) : Decidable (texelDispatched W H x y) :=
  inferInstanceAs (Decidable (And _ _))

theorem dispatchGroupCount_eq (w : Nat) : dispatchGroupCount w = w / 8 := by
  simp [dispatchGroupCount]
  omega

end DispatchMath

/-! ## Claim theorems -/

theorem smul_eq_zero_vec {c : ℝ} {w : XrVector3f} (hw : w ≠ 0) (hz : c • w = 0) :
    c = 0 := by
  by_contra hc
  apply hw
  ext
  · have hx := congrArg XrVector3f.x hz
    simp only [XrVector3f.smul_x, XrVector3f.zero_x] at hx
    simp only [XrVector3f.zero_x]
    rcases mul_eq_zero.mp hx with h' | h'
    · exact absurd h' hc
    · exact h'
  · have hy := congrArg XrVector3f.y hz
    simp only [XrVector3f.smul_y, XrVector3f.zero_y] at hy
    simp only [XrVector3f.zero_y]
    rcases mul_eq_zero.mp hy with h' | h'
    · exact absurd h' hc
    · exact h'
  · have hz' := congrArg XrVector3f.z hz
    simp only [XrVector3f.smul_z, XrVector3f.zero_z] at hz'
    simp only [XrVector3f.zero_z]
    rcases mul_eq_zero.mp hz' with h' | h'
    · exact absurd h' hc
    · exact h'

/-- The pose round trip the IPD-override layer performs on a stereo pair:
the patch `overrideIPD(.., .., IPDOverride)` applied at `xrLocateViews`,
followed by the restore `overrideIPD(.., .., m_lastSeenIPD.value())`
applied at `xrEndFrame`, where the stored value is what the first call
returned. -/
noncomputable def roundTripIPD (l r : XrPosef) : XrPosef × XrPosef × ℝ :=
  overrideIPD (overrideIPD l r IPDOverride).1 (overrideIPD l r IPDOverride).2.1
    (overrideIPD l r IPDOverride).2.2

theorem roundTripIPD_left_position (l r : XrPosef) (h : l.position ≠ r.position) :
    (roundTripIPD l r).1.position
      = l.position + ((Length (l.position - r.position) - IPDOverride)
          / Length (l.position - r.position)) • (l.position - r.position) := by
  have hvne : l.position - r.position ≠ 0 := position_sub_ne_zero h
  have hdne : Length (l.position - r.position) ≠ 0 :=
    (Length_pos_of_ne_zero hvne).ne'
  have hp : (0 : ℝ) < IPDOverride := by norm_num [IPDOverride]
  have hu1 : Length (Normalize (l.position - r.position)) = 1 := Length_normalize hvne
  have habs : |(-IPDOverride)| = IPDOverride := by rw [abs_neg, abs_of_nonneg hp.le]
  have hnorm1 : Normalize ((-IPDOverride) • Normalize (l.position - r.position))
      = (-1 : ℝ) • Normalize (l.position - r.position) := by
    rw [Normalize_smul, Normalize_of_unit hu1, habs,
      show (-IPDOverride) * IPDOverride⁻¹ = -1 by field_simp]
  have e1 : (roundTripIPD l r).1.position
      = (overrideIPD l r IPDOverride).1.position
        + (0.5 : ℝ) • ((overrideIPD l r IPDOverride).1.position
            - (overrideIPD l r IPDOverride).2.1.position)
        - ((overrideIPD l r IPDOverride).2.2 * 0.5)
            • Normalize ((overrideIPD l r IPDOverride).1.position
                - (overrideIPD l r IPDOverride).2.1.position) := rfl
  have e2 : (overrideIPD l r IPDOverride).1.position
      = l.position + (0.5 : ℝ) • (l.position - r.position)
        - (IPDOverride * 0.5) • Normalize (l.position - r.position) := rfl
  have e3 : (overrideIPD l r IPDOverride).2.2 = Length (l.position - r.position) := rfl
  rw [e1, overrideIPD_sub, e3, hnorm1, e2]
  simp only [Normalize]
  ext <;> simp <;> field_simp <;> ring

theorem roundTripIPD_right_position (l r : XrPosef) (h : l.position ≠ r.position) :
    (roundTripIPD l r).2.1.position
      = r.position + ((Length (l.position - r.position) - IPDOverride)
          / Length (l.position - r.position)) • (l.position - r.position) := by
  have hvne : l.position - r.position ≠ 0 := position_sub_ne_zero h
  have hdne : Length (l.position - r.position) ≠ 0 :=
    (Length_pos_of_ne_zero hvne).ne'
  have hp : (0 : ℝ) < IPDOverride := by norm_num [IPDOverride]
  have hu1 : Length (Normalize (l.position - r.position)) = 1 := Length_normalize hvne
  have habs : |(-IPDOverride)| = IPDOverride := by rw [abs_neg, abs_of_nonneg hp.le]
  have hnorm1 : Normalize ((-IPDOverride) • Normalize (l.position - r.position))
      = (-1 : ℝ) • Normalize (l.position - r.position) := by
    rw [Normalize_smul, Normalize_of_unit hu1, habs,
      show (-IPDOverride) * IPDOverride⁻¹ = -1 by field_simp]
  have e1 : (roundTripIPD l r).2.1.position
      = (overrideIPD l r IPDOverride).1.position
        + (0.5 : ℝ) • ((overrideIPD l r IPDOverride).1.position
            - (overrideIPD l r IPDOverride).2.1.position)
        + ((overrideIPD l r IPDOverride).2.2 * 0.5)
            • Normalize ((overrideIPD l r IPDOverride).1.position
                - (overrideIPD l r IPDOverride).2.1.position) := rfl
  have e2 : (overrideIPD l r IPDOverride).1.position
      = l.position + (0.5 : ℝ) • (l.position - r.position)
        - (IPDOverride * 0.5) • Normalize (l.position - r.position) := rfl
  have e3 : (overrideIPD l r IPDOverride).2.2 = Length (l.position - r.position) := rfl
  rw [e1, overrideIPD_sub, e3, hnorm1, e2]
  simp only [Normalize]
  ext <;> simp <;> field_simp <;> ring

/-- A sample field of view used in concrete inputs. -/
def sampleFov : XrFovf := ⟨-1, 1, 1, -1⟩

def sampleViewL : XrView := ⟨samplePoseL, sampleFov⟩

def sampleViewR : XrView := ⟨samplePoseR, sampleFov⟩

/-- A validly-typed stereo `XrViewLocateInfo`. -/
def sampleLocateInfo : XrViewLocateInfo :=
  ⟨XrStructureType.viewLocateInfo, XrViewConfigurationType.primaryStereo, 0, 0⟩

/-- A runtime oracle whose `xrLocateViews` succeeds and reports the sample
stereo views. -/
def sampleLocateRuntime : IPDLayer.LocateCall → IPDLayer.LocateReturn :=
  fun _ => ⟨XR_SUCCESS, 0, 2, [sampleViewL, sampleViewR]⟩

/-- Claim C2, refuted at a concrete input: on a successful stereo locate,
the chained runtime's `xrLocateViews` receives the caller's views buffer
unpatched, even though the IPD-override patch is not the identity on that
buffer — so the patch is not applied before the chained locate is
invoked (it is applied to the chained call's output afterwards). -/
theorem claim_C2_counterexample :
    (IPDLayer.xrLocateViews sampleLocateRuntime false none 1 sampleLocateInfo
        XrStructureType.viewState 0 2 0 [sampleViewL, sampleViewR]).chainedCall
      = some ⟨1, sampleLocateInfo, XrStructureType.viewState, 2, [sampleViewL, sampleViewR]⟩
    ∧ (IPDLayer.applyStereoOverride IPDOverride [sampleViewL, sampleViewR]).1
        ≠ [sampleViewL, sampleViewR] := by
  constructor
  · simp only [IPDLayer.xrLocateViews]
    rw [if_neg (by simp [sampleLocateInfo]),
      if_pos ⟨by simp [sampleLocateRuntime, XR_SUCCEEDED, XR_SUCCESS], by simp⟩,
      if_pos (by simp [sampleLocateInfo]), if_pos (by simp)]
  · have hstep : (IPDLayer.applyStereoOverride IPDOverride [sampleViewL, sampleViewR]).1
        = [⟨(overrideIPD samplePoseL samplePoseR IPDOverride).1, sampleFov⟩,
           ⟨(overrideIPD samplePoseL samplePoseR IPDOverride).2.1, sampleFov⟩] := rfl
    rw [hstep, overrideIPD_sample_step1]
    intro h
    have h0 := congrArg (fun l => (List.headD l sampleViewL).pose.position.x) h
    simp [sampleViewL, samplePoseL] at h0

/-- Claim C2 amended: for every successful `xrLocateViews` with view
configuration `PRIMARY_STEREO`, nonzero `viewCapacityInput` and the
deactivate key not pressed, the chained runtime's `xrLocateViews` is
invoked first — on the caller's arguments unchanged — and the IPD-override
patch is applied to the view poses the chained runtime returns, before
they are handed back to the application (with the reported separation
recorded in `m_lastSeenIPD`). -/
theorem claim_C2_amended
    (rtL : IPDLayer.LocateCall → IPDLayer.LocateReturn) (st : Option ℝ)
    (session : Nat) (vli : XrViewLocateInfo) (flagsIn cap countIn : Nat)
    (viewsIn : List XrView)
    (hT : vli.type = XrStructureType.viewLocateInfo)
    (hcfg : vli.viewConfigurationType = XrViewConfigurationType.primaryStereo)
    (hres : XR_SUCCEEDED (rtL ⟨session, vli, XrStructureType.viewState, cap, viewsIn⟩).result)
    (hcap : cap ≠ 0) :
    (IPDLayer.xrLocateViews rtL false st session vli XrStructureType.viewState
        flagsIn cap countIn viewsIn).chainedCall
      = some ⟨session, vli, XrStructureType.viewState, cap, viewsIn⟩
    ∧ (IPDLayer.xrLocateViews rtL false st session vli XrStructureType.viewState
        flagsIn cap countIn viewsIn).views
      = (IPDLayer.applyStereoOverride IPDOverride
          (rtL ⟨session, vli, XrStructureType.viewState, cap, viewsIn⟩).viewsOut).1
    ∧ (IPDLayer.xrLocateViews rtL false st session vli XrStructureType.viewState
        flagsIn cap countIn viewsIn).lastSeenIPD
      = some (IPDLayer.applyStereoOverride IPDOverride
          (rtL ⟨session, vli, XrStructureType.viewState, cap, viewsIn⟩).viewsOut).2 := by
  simp only [IPDLayer.xrLocateViews]
  rw [if_neg (by simp [hT]), if_pos ⟨hres, hcap⟩, if_pos hcfg, if_pos (by simp)]
  exact ⟨rfl, rfl, rfl⟩

/-- Witness for the amended C2 at a concrete successful stereo locate. -/
theorem claim_C2_amended_witness :
    (sampleLocateInfo.type = XrStructureType.viewLocateInfo
      ∧ sampleLocateInfo.viewConfigurationType = XrViewConfigurationType.primaryStereo
      ∧ XR_SUCCEEDED (sampleLocateRuntime
          ⟨1, sampleLocateInfo, XrStructureType.viewState, 2, []⟩).result
      ∧ (2 : Nat) ≠ 0)
    ∧ ((IPDLayer.xrLocateViews sampleLocateRuntime false none 1 sampleLocateInfo
          XrStructureType.viewState 0 2 0 []).chainedCall
        = some ⟨1, sampleLocateInfo, XrStructureType.viewState, 2, []⟩
      ∧ (IPDLayer.xrLocateViews sampleLocateRuntime false none 1 sampleLocateInfo
          XrStructureType.viewState 0 2 0 []).views
        = (IPDLayer.applyStereoOverride IPDOverride (sampleLocateRuntime
            ⟨1, sampleLocateInfo, XrStructureType.viewState, 2, []⟩).viewsOut).1
      ∧ (IPDLayer.xrLocateViews sampleLocateRuntime false none 1 sampleLocateInfo
          XrStructureType.viewState 0 2 0 []).lastSeenIPD
        = some (IPDLayer.applyStereoOverride IPDOverride (sampleLocateRuntime
            ⟨1, sampleLocateInfo, XrStructureType.viewState, 2, []⟩).viewsOut).2) :=
  ⟨⟨rfl, rfl, by simp [sampleLocateRuntime, XR_SUCCEEDED, XR_SUCCESS], by decide⟩,
    claim_C2_amended sampleLocateRuntime none 1 sampleLocateInfo 0 2 0 []
      rfl rfl (by simp [sampleLocateRuntime, XR_SUCCEEDED, XR_SUCCESS]) (by decide)⟩

/-- Claim C9 (frame condition on view patching): a validly-typed
`xrLocateViews` alters at most the position fields of the first two views;
result, `viewState` flags, `viewCountOutput`, every view's orientation and
fov, and all views beyond the first two come back exactly as the chained
runtime produced them.  When the locate failed, the capacity was zero, the
configuration is not `PRIMARY_STEREO`, or the VK_END key is pressed, no
view field at all is modified; in the key-pressed case (of an otherwise
successful stereo locate, the only case in which the key is examined) the
stored last-seen IPD is cleared. -/
theorem claim_C9_locate_frame_condition
    (rtL : IPDLayer.LocateCall → IPDLayer.LocateReturn) (key : Bool)
    (st : Option ℝ) (session : Nat) (vli : XrViewLocateInfo)
    (flagsIn cap countIn : Nat) (viewsIn : List XrView)
    (out : IPDLayer.LocateOutcome) (ret : IPDLayer.LocateReturn)
    (hT : vli.type = XrStructureType.viewLocateInfo)
    (hout : out = IPDLayer.xrLocateViews rtL key st session vli
        XrStructureType.viewState flagsIn cap countIn viewsIn)
    (hret : ret = rtL ⟨session, vli, XrStructureType.viewState, cap, viewsIn⟩) :
    out.result = ret.result
    ∧ out.viewStateFlags = ret.viewStateFlags
    ∧ out.viewCountOutput = ret.viewCountOutput
    ∧ out.chainedCall = some ⟨session, vli, XrStructureType.viewState, cap, viewsIn⟩
    ∧ (∀ j, 2 ≤ j → out.views.get? j = ret.viewsOut.get? j)
    ∧ (∀ w0 w1 rest, ret.viewsOut = w0 :: w1 :: rest →
        ∃ u0 u1, out.views = u0 :: u1 :: rest
          ∧ u0.pose.orientation = w0.pose.orientation ∧ u0.fov = w0.fov
          ∧ u1.pose.orientation = w1.pose.orientation ∧ u1.fov = w1.fov)
    ∧ ((¬ XR_SUCCEEDED ret.result ∨ cap = 0
        ∨ vli.viewConfigurationType ≠ XrViewConfigurationType.primaryStereo
        ∨ key = true) → out.views = ret.viewsOut)
    ∧ ((XR_SUCCEEDED ret.result ∧ cap ≠ 0
        ∧ vli.viewConfigurationType = XrViewConfigurationType.primaryStereo
        ∧ key = true) → out.lastSeenIPD = none) := by
  subst hout hret
  simp only [IPDLayer.xrLocateViews]
  rw [if_neg (by simp [hT])]
  by_cases hS : XR_SUCCEEDED (rtL ⟨session, vli, XrStructureType.viewState, cap,
      viewsIn⟩).result ∧ cap ≠ 0
  · rw [if_pos hS]
    by_cases hC : vli.viewConfigurationType = XrViewConfigurationType.primaryStereo
    · rw [if_pos hC]
      cases key with
      | false =>
          rw [if_pos (by simp)]
          refine ⟨rfl, rfl, rfl, rfl, ?_, ?_, ?_, ?_⟩
          · intro j hj
            cases hv : (rtL ⟨session, vli, XrStructureType.viewState, cap,
                viewsIn⟩).viewsOut with
            | nil => simp [IPDLayer.applyStereoOverride]
            | cons w0 tl =>
                cases tl with
                | nil => simp [IPDLayer.applyStereoOverride]
                | cons w1 rest =>
                    obtain ⟨k, rfl⟩ : ∃ k, j = k + 2 := ⟨j - 2, by omega⟩
                    simp [IPDLayer.applyStereoOverride]
          · intro w0 w1 rest hv
            rw [hv]
            exact ⟨_, _, rfl, rfl, rfl, rfl, rfl⟩
          · rintro (h | h | h | h)
            · exact absurd hS.1 h
            · exact absurd h hS.2
            · exact absurd hC h
            · exact absurd h (by simp)
          · intro hconj
            exact absurd hconj.2.2.2 (by simp)
      | true =>
          rw [if_neg (by simp)]
          refine ⟨rfl, rfl, rfl, rfl, fun j hj => rfl, ?_, fun h => rfl, fun h => rfl⟩
          intro w0 w1 rest hv
          exact ⟨w0, w1, hv, rfl, rfl, rfl, rfl⟩
    · rw [if_neg hC]
      refine ⟨rfl, rfl, rfl, rfl, fun j hj => rfl, ?_, fun h => rfl, ?_⟩
      · intro w0 w1 rest hv
        exact ⟨w0, w1, hv, rfl, rfl, rfl, rfl⟩
      · intro hconj
        exact absurd hconj.2.2.1 hC
  · rw [if_neg hS]
    refine ⟨rfl, rfl, rfl, rfl, fun j hj => rfl, ?_, fun h => rfl, ?_⟩
    · intro w0 w1 rest hv
      exact ⟨w0, w1, hv, rfl, rfl, rfl, rfl⟩
    · intro hconj
      exact absurd ⟨hconj.1, hconj.2.1⟩ hS

/-- The outcome of a concrete stereo locate with the VK_END key held. -/
noncomputable def sampleLocateOutcomeKey : IPDLayer.LocateOutcome :=
  IPDLayer.xrLocateViews sampleLocateRuntime true (some 1) 1 sampleLocateInfo
    XrStructureType.viewState 0 2 0 []

/-- The chained runtime's return for that concrete locate. -/
def sampleLocateReturn : IPDLayer.LocateReturn :=
  sampleLocateRuntime ⟨1, sampleLocateInfo, XrStructureType.viewState, 2, []⟩

/-- Witness for C9: a concrete successful stereo locate with the key held
(views pass through untouched, the stored IPD is cleared). -/
theorem claim_C9_locate_frame_condition_witness :
    (sampleLocateInfo.type = XrStructureType.viewLocateInfo
      ∧ sampleLocateOutcomeKey = IPDLayer.xrLocateViews sampleLocateRuntime true
          (some 1) 1 sampleLocateInfo XrStructureType.viewState 0 2 0 []
      ∧ sampleLocateReturn = sampleLocateRuntime
          ⟨1, sampleLocateInfo, XrStructureType.viewState, 2, []⟩)
    ∧ (sampleLocateOutcomeKey.result = sampleLocateReturn.result
      ∧ sampleLocateOutcomeKey.viewStateFlags = sampleLocateReturn.viewStateFlags
      ∧ sampleLocateOutcomeKey.viewCountOutput = sampleLocateReturn.viewCountOutput
      ∧ sampleLocateOutcomeKey.chainedCall
          = some ⟨1, sampleLocateInfo, XrStructureType.viewState, 2, []⟩
      ∧ (∀ j, 2 ≤ j → sampleLocateOutcomeKey.views.get? j
          = sampleLocateReturn.viewsOut.get? j)
      ∧ (∀ w0 w1 rest, sampleLocateReturn.viewsOut = w0 :: w1 :: rest →
          ∃ u0 u1, sampleLocateOutcomeKey.views = u0 :: u1 :: rest
            ∧ u0.pose.orientation = w0.pose.orientation ∧ u0.fov = w0.fov
            ∧ u1.pose.orientation = w1.pose.orientation ∧ u1.fov = w1.fov)
      ∧ ((¬ XR_SUCCEEDED sampleLocateReturn.result ∨ (2 : Nat) = 0
          ∨ sampleLocateInfo.viewConfigurationType ≠ XrViewConfigurationType.primaryStereo
          ∨ true = true) → sampleLocateOutcomeKey.views = sampleLocateReturn.viewsOut)
      ∧ ((XR_SUCCEEDED sampleLocateReturn.result ∧ (2 : Nat) ≠ 0
          ∧ sampleLocateInfo.viewConfigurationType = XrViewConfigurationType.primaryStereo
          ∧ true = true) → sampleLocateOutcomeKey.lastSeenIPD = none)) :=
  ⟨⟨rfl, rfl, rfl⟩,
    claim_C9_locate_frame_condition sampleLocateRuntime true (some 1) 1
      sampleLocateInfo 0 2 0 [] sampleLocateOutcomeKey sampleLocateReturn
      rfl rfl rfl⟩

/-- Claim C1 (restore before submit): after an `xrLocateViews` that
recorded a last-seen IPD (the separation the runtime reported), every
projection layer submitted to `xrEndFrame` with exactly two stereo views is
replaced in the chained `XrFrameEndInfo` by a copy whose eye poses have
been run through `overrideIPD` with that stored IPD, so the eye separation
passed to the runtime equals the runtime-reported IPD; only copies are
patched (the chained list is a fresh `map` over the submitted entries, the
application's own structures being read-only inputs), and every field
other than the two eye positions is preserved. -/
theorem claim_C1_endFrame_restores_IPD
    (rtL : IPDLayer.LocateCall → IPDLayer.LocateReturn)
    (rtE : XrFrameEndInfo IPDLayer.IPDLayerEntry → XrResult)
    (stPrev : Option ℝ) (session : Nat) (vli : XrViewLocateInfo)
    (flagsIn cap countIn : Nat) (viewsIn : List XrView)
    (rv0 rv1 : XrView) (rvRest : List XrView)
    (einfo : XrFrameEndInfo (Option IPDLayer.IPDLayerEntry))
    (subLayers : List IPDLayer.IPDLayerEntry) (i : Nat)
    (p : IPDLayer.XrCompositionLayerProjection)
    (v0 v1 : IPDLayer.XrCompositionLayerProjectionView)
    (st : Option ℝ)
    (hT : vli.type = XrStructureType.viewLocateInfo)
    (hcfg : vli.viewConfigurationType = XrViewConfigurationType.primaryStereo)
    (hres : XR_SUCCEEDED (rtL ⟨session, vli, XrStructureType.viewState, cap, viewsIn⟩).result)
    (hcap : cap ≠ 0)
    (hrv : (rtL ⟨session, vli, XrStructureType.viewState, cap, viewsIn⟩).viewsOut
        = rv0 :: rv1 :: rvRest)
    (hst : st = (IPDLayer.xrLocateViews rtL false stPrev session vli
        XrStructureType.viewState flagsIn cap countIn viewsIn).lastSeenIPD)
    (hET : einfo.type = XrStructureType.frameEndInfo)
    (hlayers : einfo.layers = subLayers.map some)
    (hi : subLayers.get? i = some (IPDLayer.IPDLayerEntry.projection p))
    (hpv : p.views = [v0, v1])
    (hne : v0.pose.position ≠ v1.pose.position) :
    ∃ chained q0 q1,
      IPDLayer.xrEndFrame rtE st einfo = (rtE chained, some chained)
      ∧ chained.layers = subLayers.map (IPDLayer.endFramePatchLayer st)
      ∧ chained.layers.get? i
          = some (IPDLayer.IPDLayerEntry.projection { p with views := [q0, q1] })
      ∧ q0.fov = v0.fov ∧ q1.fov = v1.fov
      ∧ q0.subImage = v0.subImage ∧ q1.subImage = v1.subImage
      ∧ q0.pose.orientation = v0.pose.orientation
      ∧ q1.pose.orientation = v1.pose.orientation
      ∧ Length (q0.pose.position - q1.pose.position)
          = Length (rv0.pose.position - rv1.pose.position)
      ∧ st = some (Length (rv0.pose.position - rv1.pose.position)) := by
  have hst' : st = some (Length (rv0.pose.position - rv1.pose.position)) := by
    rw [hst]
    simp only [IPDLayer.xrLocateViews]
    rw [if_neg (by simp [hT]), if_pos ⟨hres, hcap⟩, if_pos hcfg, if_pos (by simp)]
    rw [show (IPDLayer.LocateOutcome.lastSeenIPD _)
        = some (IPDLayer.applyStereoOverride IPDOverride
            (rtL ⟨session, vli, XrStructureType.viewState, cap, viewsIn⟩).viewsOut).2
      from rfl]
    rw [hrv]
    rfl
  have hbuild : IPDLayer.buildChainLayers st einfo.layers
      = some (subLayers.map (IPDLayer.endFramePatchLayer st)) := by
    rw [hlayers]
    exact IPDLayer.buildChainLayers_map_some st subLayers
  have hEF : IPDLayer.xrEndFrame rtE st einfo
      = (rtE { type := einfo.type, displayTime := einfo.displayTime,
               environmentBlendMode := einfo.environmentBlendMode,
               layers := subLayers.map (IPDLayer.endFramePatchLayer st) },
         some { type := einfo.type, displayTime := einfo.displayTime,
                environmentBlendMode := einfo.environmentBlendMode,
                layers := subLayers.map (IPDLayer.endFramePatchLayer st) }) := by
    simp only [IPDLayer.xrEndFrame]
    rw [if_neg (by simp [hET]), hbuild]
  have hpatch : IPDLayer.endFramePatchLayer st (IPDLayer.IPDLayerEntry.projection p)
      = IPDLayer.IPDLayerEntry.projection
          { p with views :=
              [{ v0 with pose := (overrideIPD v0.pose v1.pose
                  (Length (rv0.pose.position - rv1.pose.position))).1 },
               { v1 with pose := (overrideIPD v0.pose v1.pose
                  (Length (rv0.pose.position - rv1.pose.position))).2.1 }] } := by
    rw [hst']
    simp only [IPDLayer.endFramePatchLayer]
    rw [if_pos (by rw [hpv]; rfl)]
    unfold IPDLayer.patchProjectionLayer
    rw [hpv]
  have hgets : (subLayers.map (IPDLayer.endFramePatchLayer st)).get? i
      = some (IPDLayer.endFramePatchLayer st (IPDLayer.IPDLayerEntry.projection p)) := by
    rw [List.get?_map, hi]
    rfl
  refine ⟨_,
    { v0 with pose := (overrideIPD v0.pose v1.pose
        (Length (rv0.pose.position - rv1.pose.position))).1 },
    { v1 with pose := (overrideIPD v0.pose v1.pose
        (Length (rv0.pose.position - rv1.pose.position))).2.1 },
    hEF, rfl, ?_, rfl, rfl, rfl, rfl, rfl, rfl, ?_, hst'⟩
  · show (subLayers.map (IPDLayer.endFramePatchLayer st)).get? i
      = some (IPDLayer.IPDLayerEntry.projection
          { p with views :=
              [{ v0 with pose := (overrideIPD v0.pose v1.pose
                  (Length (rv0.pose.position - rv1.pose.position))).1 },
               { v1 with pose := (overrideIPD v0.pose v1.pose
                  (Length (rv0.pose.position - rv1.pose.position))).2.1 }] })
    rw [hgets, hpatch]
  · exact overrideIPD_separation v0.pose v1.pose _ hne (Length_nonneg _)

/-- Concrete projection-layer inputs for the C1 witness. -/
def sampleProjView0 : IPDLayer.XrCompositionLayerProjectionView :=
  ⟨samplePoseL, sampleFov, 7⟩

def sampleProjView1 : IPDLayer.XrCompositionLayerProjectionView :=
  ⟨samplePoseR, sampleFov, 8⟩

def sampleProjection : IPDLayer.XrCompositionLayerProjection :=
  ⟨0, 2, [sampleProjView0, sampleProjView1]⟩

def sampleEndInfo : XrFrameEndInfo (Option IPDLayer.IPDLayerEntry) :=
  ⟨XrStructureType.frameEndInfo, 0, 0,
    [some (IPDLayer.IPDLayerEntry.projection sampleProjection)]⟩

/-- The `m_lastSeenIPD` stored by the concrete locate of the C1 witness. -/
noncomputable def sampleStoredIPD : Option ℝ :=
  (IPDLayer.xrLocateViews sampleLocateRuntime false none 1 sampleLocateInfo
    XrStructureType.viewState 0 2 0 []).lastSeenIPD

/-- Witness for C1: a concrete locate followed by a concrete submit of one
stereo projection layer. -/
theorem claim_C1_endFrame_restores_IPD_witness :
    (sampleLocateInfo.type = XrStructureType.viewLocateInfo
      ∧ sampleLocateInfo.viewConfigurationType = XrViewConfigurationType.primaryStereo
      ∧ XR_SUCCEEDED (sampleLocateRuntime
          ⟨1, sampleLocateInfo, XrStructureType.viewState, 2, []⟩).result
      ∧ (2 : Nat) ≠ 0
      ∧ (sampleLocateRuntime
          ⟨1, sampleLocateInfo, XrStructureType.viewState, 2, []⟩).viewsOut
          = sampleViewL :: sampleViewR :: []
      ∧ sampleStoredIPD = (IPDLayer.xrLocateViews sampleLocateRuntime false none 1
          sampleLocateInfo XrStructureType.viewState 0 2 0 []).lastSeenIPD
      ∧ sampleEndInfo.type = XrStructureType.frameEndInfo
      ∧ sampleEndInfo.layers
          = [IPDLayer.IPDLayerEntry.projection sampleProjection].map some
      ∧ [IPDLayer.IPDLayerEntry.projection sampleProjection].get? 0
          = some (IPDLayer.IPDLayerEntry.projection sampleProjection)
      ∧ sampleProjection.views = [sampleProjView0, sampleProjView1]
      ∧ sampleProjView0.pose.position ≠ sampleProjView1.pose.position)
    ∧ (∃ chained q0 q1,
        IPDLayer.xrEndFrame (fun _ => 0) sampleStoredIPD sampleEndInfo
          = ((fun _ => (0 : XrResult)) chained, some chained)
        ∧ chained.layers
            = [IPDLayer.IPDLayerEntry.projection sampleProjection].map
                (IPDLayer.endFramePatchLayer sampleStoredIPD)
        ∧ chained.layers.get? 0
            = some (IPDLayer.IPDLayerEntry.projection
                { sampleProjection with views := [q0, q1] })
        ∧ q0.fov = sampleProjView0.fov ∧ q1.fov = sampleProjView1.fov
        ∧ q0.subImage = sampleProjView0.subImage
        ∧ q1.subImage = sampleProjView1.subImage
        ∧ q0.pose.orientation = sampleProjView0.pose.orientation
        ∧ q1.pose.orientation = sampleProjView1.pose.orientation
        ∧ Length (q0.pose.position - q1.pose.position)
            = Length (sampleViewL.pose.position - sampleViewR.pose.position)
        ∧ sampleStoredIPD
            = some (Length (sampleViewL.pose.position - sampleViewR.pose.position))) :=
  ⟨⟨rfl, rfl, by simp [sampleLocateRuntime, XR_SUCCEEDED, XR_SUCCESS], by decide,
      rfl, rfl, rfl, rfl, rfl, rfl, samplePose_position_ne⟩,
    claim_C1_endFrame_restores_IPD sampleLocateRuntime (fun _ => 0) none 1
      sampleLocateInfo 0 2 0 [] sampleViewL sampleViewR [] sampleEndInfo
      [IPDLayer.IPDLayerEntry.projection sampleProjection] 0 sampleProjection
      sampleProjView0 sampleProjView1 sampleStoredIPD
      rfl rfl (by simp [sampleLocateRuntime, XR_SUCCEEDED, XR_SUCCESS]) (by decide)
      rfl rfl rfl rfl rfl rfl samplePose_position_ne⟩

/-- Claim C6 (transparency-key compute shader): for every texel the shader
writes back the input rgb unchanged, with alpha equal to the configured
`Transparency` value exactly when the rgb triple equals the configured
`TransparentColor` — which the constant buffer sets to magenta
`(1, 0, 1)` — and alpha `1.0` otherwise.  (The claim describes the
per-thread write; which texels get a thread is claim C10.) -/
theorem claim_C6_transparency_shader (pix : TransparencyPass.HlslFloat4) :
    TransparencyPass.transparencyShaderMain TransparencyPass.sessionTransparencyParams pix
      = ⟨pix.r, pix.g, pix.b,
          if pix.r = 1 ∧ pix.g = 0 ∧ pix.b = 1 then
            TransparencyPass.sessionTransparencyParams.transparencyLevel
          else 1⟩
    ∧ TransparencyPass.sessionTransparencyParams.transparentColor = ⟨1, 0, 1⟩ := by
  constructor
  · unfold TransparencyPass.transparencyShaderMain TransparencyPass.sessionTransparencyParams
    norm_num
  · unfold TransparencyPass.sessionTransparencyParams
    norm_num

/-- Claim C7 (swapchain double-buffering): the `CaptureWindowWinRT`
constructor creates its Direct3D11 capture frame pool with exactly 2
buffers, in `DXGI_FORMAT_R8G8B8A8_UNORM`, sized to the captured window
item. -/
theorem claim_C7_framepool (itemSize : Int × Int) :
    (CaptureWinRT.captureWindowWinRTFramePool itemSize).numberOfBuffers = 2
    ∧ (CaptureWinRT.captureWindowWinRTFramePool itemSize).pixelFormat
        = CaptureWinRT.DXGI_FORMAT_R8G8B8A8_UNORM
    ∧ (CaptureWinRT.captureWindowWinRTFramePool itemSize).size = itemSize :=
  ⟨rfl, rfl, rfl⟩

/-- Claim C10 (dispatch coverage of the transparency pass): the dispatch
issues `Width / 8` by `Height / 8` groups (unsigned integer division, the
subsequent `std::ceil` being a no-op) of 8x8 threads, so every texel of a
`Width x Height` surface is visited iff both dimensions are multiples of 8;
the final partial 8-texel band of either dimension is never visited. -/
theorem claim_C10_dispatch_coverage (W H : Nat) (hW : 0 < W) (hH : 0 < H) :
    ((∀ x y, x < W → y < H → DispatchMath.texelDispatched W H x y)
        ↔ (W % 8 = 0 ∧ H % 8 = 0))
    ∧ (∀ x y, 8 * (W / 8) ≤ x → ¬ DispatchMath.texelDispatched W H x y)
    ∧ (∀ x y, 8 * (H / 8) ≤ y → ¬ DispatchMath.texelDispatched W H x y)
    ∧ DispatchMath.dispatchGroupCount W = W / 8
    ∧ DispatchMath.dispatchGroupCount H = H / 8 := by
  have eW := DispatchMath.dispatchGroupCount_eq W
  have eH := DispatchMath.dispatchGroupCount_eq H
  have hdef : ∀ x y, DispatchMath.texelDispatched W H x y ↔
      (x < 8 * (W / 8) ∧ y < 8 * (H / 8)) := by
    intro x y
    unfold DispatchMath.texelDispatched DispatchMath.transparencyThreadsPerGroup
    rw [eW, eH]
  refine ⟨?_, ?_, ?_, eW, eH⟩
  · constructor
    · intro hall
      constructor
      · by_contra hmod
        have hx : 8 * (W / 8) < W := by omega
        have h0 := hall (8 * (W / 8)) 0 hx hH
        rw [hdef] at h0
        omega
      · by_contra hmod
        have hy : 8 * (H / 8) < H := by omega
        have h0 := hall 0 (8 * (H / 8)) hW hy
        rw [hdef] at h0
        omega
    · rintro ⟨hw8, hh8⟩ x y hx hy
      rw [hdef]
      omega
  · intro x y hx hd
    rw [hdef] at hd
    omega
  · intro x y hy hd
    rw [hdef] at hd
    omega

/-- Witness for C10 at the concrete surface `8 x 16`. -/
theorem claim_C10_dispatch_coverage_witness :
    (0 < 8 ∧ 0 < 16)
    ∧ (((∀ x y, x < 8 → y < 16 → DispatchMath.texelDispatched 8 16 x y)
          ↔ (8 % 8 = 0 ∧ 16 % 8 = 0))
        ∧ (∀ x y, 8 * (8 / 8) ≤ x → ¬ DispatchMath.texelDispatched 8 16 x y)
        ∧ (∀ x y, 8 * (16 / 8) ≤ y → ¬ DispatchMath.texelDispatched 8 16 x y)
        ∧ DispatchMath.dispatchGroupCount 8 = 8 / 8
        ∧ DispatchMath.dispatchGroupCount 16 = 16 / 8) :=
  ⟨⟨by decide, by decide⟩,
    claim_C10_dispatch_coverage 8 16 (by decide) (by decide)⟩

/-- Claim C8 (input-struct validation): each intercepted entry point
returns `XR_ERROR_VALIDATION_FAILURE` without invoking the chained runtime
and without modifying any layer state whenever the `type` field of its
input structure is not the expected `XR_TYPE_*` value (for `xrLocateViews`,
whenever either `viewLocateInfo->type` or `viewState->type` is wrong). -/
theorem claim_C8_validation_guard
    (newFactory : Nat) (cst : CaptureLayer.CreateState)
    (ci : CaptureLayer.XrInstanceCreateInfo)
    (rtS : CaptureLayer.XrSystemGetInfo → CaptureLayer.GetSystemReturn)
    (logged : Bool) (gi : CaptureLayer.XrSystemGetInfo) (sysIn : Nat)
    {α : Type}
    (rtE : XrFrameEndInfo (Sum α CaptureLayer.XrCompositionLayerQuad) → XrResult)
    (env : Option CaptureLayer.CompositionEnv) (einfo : XrFrameEndInfo α)
    (rtL : IPDLayer.LocateCall → IPDLayer.LocateReturn) (key : Bool)
    (st : Option ℝ) (session : Nat) (vli : XrViewLocateInfo)
    (vsType : XrStructureType) (flagsIn cap countIn : Nat)
    (viewsIn : List XrView)
    (h1 : ci.type ≠ XrStructureType.instanceCreateInfo)
    (h2 : gi.type ≠ XrStructureType.systemGetInfo)
    (h3 : einfo.type ≠ XrStructureType.frameEndInfo)
    (h4 : vli.type ≠ XrStructureType.viewLocateInfo ∨ vsType ≠ XrStructureType.viewState) :
    CaptureLayer.xrCreateInstance newFactory cst ci
        = ⟨XR_ERROR_VALIDATION_FAILURE, cst, false, false⟩
    ∧ CaptureLayer.xrGetSystem rtS logged gi sysIn
        = ⟨XR_ERROR_VALIDATION_FAILURE, sysIn, logged, false⟩
    ∧ CaptureLayer.captureEndFrame rtE env einfo
        = ⟨XR_ERROR_VALIDATION_FAILURE, none, env.bind (fun e => e.sessionData)⟩
    ∧ IPDLayer.xrLocateViews rtL key st session vli vsType flagsIn cap countIn viewsIn
        = ⟨XR_ERROR_VALIDATION_FAILURE, flagsIn, countIn, viewsIn, st, none⟩ := by
  refine ⟨?_, ?_, ?_, ?_⟩
  · unfold CaptureLayer.xrCreateInstance
    rw [if_pos h1]
  · unfold CaptureLayer.xrGetSystem
    rw [if_pos h2]
  · unfold CaptureLayer.captureEndFrame
    rw [if_pos h3]
  · unfold IPDLayer.xrLocateViews
    rw [if_pos h4]

/-- Witness for C8 at concrete wrongly-typed inputs. -/
theorem claim_C8_validation_guard_witness :
    ((XrStructureType.unknownType 0 ≠ XrStructureType.instanceCreateInfo)
      ∧ (XrStructureType.unknownType 0 ≠ XrStructureType.systemGetInfo)
      ∧ (XrStructureType.unknownType 0 ≠ XrStructureType.frameEndInfo)
      ∧ (XrStructureType.unknownType 0 ≠ XrStructureType.viewLocateInfo
          ∨ XrStructureType.viewState ≠ XrStructureType.viewState))
    ∧ (CaptureLayer.xrCreateInstance 0 ⟨false, none⟩ ⟨XrStructureType.unknownType 0, 0⟩
          = ⟨XR_ERROR_VALIDATION_FAILURE, ⟨false, none⟩, false, false⟩
        ∧ CaptureLayer.xrGetSystem (fun _ => ⟨0, 0⟩) false ⟨XrStructureType.unknownType 0, 0⟩ 5
            = ⟨XR_ERROR_VALIDATION_FAILURE, 5, false, false⟩
        ∧ CaptureLayer.captureEndFrame (α := Nat) (fun _ => 0) none
              ⟨XrStructureType.unknownType 0, 0, 0, []⟩
            = ⟨XR_ERROR_VALIDATION_FAILURE, none, none⟩
        ∧ IPDLayer.xrLocateViews (fun _ => ⟨0, 0, 0, []⟩) false none 0
              ⟨XrStructureType.unknownType 0, XrViewConfigurationType.primaryStereo, 0, 0⟩
              XrStructureType.viewState 1 2 3 []
            = ⟨XR_ERROR_VALIDATION_FAILURE, 1, 3, [], none, none⟩) :=
  ⟨⟨by decide, by decide, by decide, Or.inl (by decide)⟩,
    claim_C8_validation_guard 0 ⟨false, none⟩ ⟨XrStructureType.unknownType 0, 0⟩
      (fun _ => ⟨0, 0⟩) false ⟨XrStructureType.unknownType 0, 0⟩ 5
      (α := Nat) (fun _ => 0) none ⟨XrStructureType.unknownType 0, 0, 0, []⟩
      (fun _ => ⟨0, 0, 0, []⟩) false none 0
      ⟨XrStructureType.unknownType 0, XrViewConfigurationType.primaryStereo, 0, 0⟩
      XrStructureType.viewState 1 2 3 []
      (by decide) (by decide) (by decide) (Or.inl (by decide))⟩

/-- Claim C3 (overlay layer splicing): on every validly-typed `xrEndFrame`
of the window-capture layer, the list passed to the chained runtime is the
application's layers unchanged and in order, followed by exactly one quad
layer of type `XR_TYPE_COMPOSITION_LAYER_QUAD` when `captureOverlayWindow`
succeeds and by nothing when it fails or no composition framework exists;
the chained `layerCount` equals that list's length and the result is the
chained runtime's result. -/
theorem claim_C3_overlay_splice {α : Type}
    (rt : XrFrameEndInfo (Sum α CaptureLayer.XrCompositionLayerQuad) → XrResult)
    (env : Option CaptureLayer.CompositionEnv) (info : XrFrameEndInfo α)
    (hT : info.type = XrStructureType.frameEndInfo) :
    ∃ c, (CaptureLayer.captureEndFrame rt env info).chained = some c
      ∧ c.layers = info.layers.map Sum.inl ++
          (match env with
           | some e =>
               if e.captureSucceeds then
                 [Sum.inr (CaptureLayer.overlayQuadFor (e.sessionData.getD e.freshSessionData))]
               else []
           | none => [])
      ∧ (∀ sd, (CaptureLayer.overlayQuadFor sd).type = XrStructureType.compositionLayerQuad)
      ∧ c.layers.length = info.layers.length +
          (match env with
           | some e => if e.captureSucceeds then 1 else 0
           | none => 0)
      ∧ (CaptureLayer.captureEndFrame rt env info).result = rt c := by
  unfold CaptureLayer.captureEndFrame
  rw [if_neg (by simp [hT])]
  cases env with
  | none =>
      exact ⟨_, rfl, by simp, fun _ => rfl, by simp, rfl⟩
  | some e =>
      refine ⟨_, rfl, rfl, fun _ => rfl, ?_, rfl⟩
      by_cases hc : e.captureSucceeds <;> simp [hc]

/-- Session data used as a concrete oracle input in witnesses. -/
def sampleSessionData : CaptureLayer.SessionData :=
  ⟨3, 4, samplePoseL, ⟨1, 1⟩⟩

/-- Witness for C3: a first frame with one submitted layer and a
successful window capture. -/
theorem claim_C3_overlay_splice_witness :
    ((⟨XrStructureType.frameEndInfo, 7, 0, [5]⟩ : XrFrameEndInfo Nat).type
        = XrStructureType.frameEndInfo)
    ∧ ∃ c, (CaptureLayer.captureEndFrame (fun _ => 0)
            (some ⟨none, sampleSessionData, true⟩)
            (⟨XrStructureType.frameEndInfo, 7, 0, [5]⟩ : XrFrameEndInfo Nat)).chained = some c
        ∧ c.layers = ([5] : List Nat).map Sum.inl ++
            (match (some ⟨none, sampleSessionData, true⟩ : Option CaptureLayer.CompositionEnv) with
             | some e =>
                 if e.captureSucceeds then
                   [Sum.inr (CaptureLayer.overlayQuadFor (e.sessionData.getD e.freshSessionData))]
                 else []
             | none => [])
        ∧ (∀ sd, (CaptureLayer.overlayQuadFor sd).type = XrStructureType.compositionLayerQuad)
        ∧ c.layers.length = ([5] : List Nat).length +
            (match (some ⟨none, sampleSessionData, true⟩ : Option CaptureLayer.CompositionEnv) with
             | some e => if e.captureSucceeds then 1 else 0
             | none => 0)
        ∧ (CaptureLayer.captureEndFrame (fun _ => 0)
            (some ⟨none, sampleSessionData, true⟩)
            (⟨XrStructureType.frameEndInfo, 7, 0, [5]⟩ : XrFrameEndInfo Nat)).result = (fun _ => (0 : XrResult)) c :=
  ⟨rfl, claim_C3_overlay_splice (fun _ => 0) (some ⟨none, sampleSessionData, true⟩)
    ⟨XrStructureType.frameEndInfo, 7, 0, [5]⟩ rfl⟩

/-- Claim C4, refuted at a concrete input: `overrideIPD` does not keep the
midpoint of the two eye positions.  The code computes the center as
`leftEye.position + vec * 0.5f` with `vec = leftEye - rightEye`, which is
the true midpoint translated by `leftEye - rightEye`; at the sample poses
the midpoint moves from `x = -1/2` to `x = 1/2`. -/
theorem claim_C4_counterexample :
    ¬ ((0.5 : ℝ) • ((overrideIPD samplePoseL samplePoseR IPDOverride).1.position
          + (overrideIPD samplePoseL samplePoseR IPDOverride).2.1.position)
        = (0.5 : ℝ) • (samplePoseL.position + samplePoseR.position)) := by
  rw [overrideIPD_sample_step1]
  intro h
  have h0 := congrArg XrVector3f.x h
  simp [samplePoseL, samplePoseR] at h0
  norm_num at h0

/-- Claim C4 amended: for distinct eye positions and `ipd > 0`,
`overrideIPD(leftEye, rightEye, ipd)` makes the distance between the two
new eye positions equal `ipd` and returns the distance between the two
original eye positions; the midpoint of the eye positions is not preserved
but translated by exactly `leftEye.position - rightEye.position` (exact
arithmetic). -/
theorem claim_C4_amended (l r : XrPosef) (ipd : ℝ)
    (h : l.position ≠ r.position) (hipd : 0 < ipd) :
    Length ((overrideIPD l r ipd).1.position
        - (overrideIPD l r ipd).2.1.position) = ipd
    ∧ (0.5 : ℝ) • ((overrideIPD l r ipd).1.position
          + (overrideIPD l r ipd).2.1.position)
        = (0.5 : ℝ) • (l.position + r.position) + (l.position - r.position)
    ∧ (overrideIPD l r ipd).2.2 = Length (l.position - r.position) := by
  refine ⟨overrideIPD_separation l r ipd h (le_of_lt hipd), ?_,
    overrideIPD_ret l r ipd⟩
  rw [overrideIPD_sum]
  ext <;> simp <;> ring

/-- Witness for the amended C4 at the sample poses with `ipd = 9/100`. -/
theorem claim_C4_amended_witness :
    (samplePoseL.position ≠ samplePoseR.position ∧ 0 < IPDOverride)
    ∧ (Length ((overrideIPD samplePoseL samplePoseR IPDOverride).1.position
          - (overrideIPD samplePoseL samplePoseR IPDOverride).2.1.position)
        = IPDOverride
      ∧ (0.5 : ℝ) • ((overrideIPD samplePoseL samplePoseR IPDOverride).1.position
            + (overrideIPD samplePoseL samplePoseR IPDOverride).2.1.position)
          = (0.5 : ℝ) • (samplePoseL.position + samplePoseR.position)
              + (samplePoseL.position - samplePoseR.position)
      ∧ (overrideIPD samplePoseL samplePoseR IPDOverride).2.2
          = Length (samplePoseL.position - samplePoseR.position)) :=
  ⟨⟨samplePose_position_ne, by norm_num [IPDOverride]⟩,
    claim_C4_amended samplePoseL samplePoseR IPDOverride samplePose_position_ne
      (by norm_num [IPDOverride])⟩

/-- Claim C5, refuted at a concrete input: applying `overrideIPD` with
`IPDOverride` and then applying it again with the separation returned by
the first application does not restore the eye positions.  At the sample
poses the left eye starts at the origin and ends at `x = 91/100`. -/
theorem claim_C5_counterexample :
    (roundTripIPD samplePoseL samplePoseR).1.position ≠ samplePoseL.position := by
  have hcomp : (roundTripIPD samplePoseL samplePoseR).1.position
      = ⟨91 / 100, 0, 0⟩ := by
    unfold roundTripIPD
    rw [overrideIPD_sample_step1]
    show (overrideIPD ⟨sampleQuat, ⟨91 / 200, 0, 0⟩⟩
        ⟨sampleQuat, ⟨109 / 200, 0, 0⟩⟩ 1).1.position = ⟨91 / 100, 0, 0⟩
    rw [overrideIPD_sample_step2]
  rw [hcomp]
  intro h
  have h0 := congrArg XrVector3f.x h
  simp [samplePoseL] at h0

/-- Claim C5 amended: the patch-then-restore round trip (`overrideIPD` with
`IPDOverride`, then `overrideIPD` with the separation the first call
returned) restores the left-minus-right separation vector exactly — so the
separation distance submitted to the runtime equals the original one — but
is not the identity on eye positions: both positions are translated by the
common vector `((d - IPDOverride) / d) • (leftEye - rightEye)` where `d` is
the original separation, and the round trip fixes the positions iff
`d = IPDOverride` (exact arithmetic; orientations are untouched and the
second call returns `IPDOverride`). -/
theorem claim_C5_amended (l r : XrPosef) (h : l.position ≠ r.position) :
    (roundTripIPD l r).1.position - (roundTripIPD l r).2.1.position
        = l.position - r.position
    ∧ (roundTripIPD l r).1.position
        = l.position + ((Length (l.position - r.position) - IPDOverride)
            / Length (l.position - r.position)) • (l.position - r.position)
    ∧ (roundTripIPD l r).2.1.position
        = r.position + ((Length (l.position - r.position) - IPDOverride)
            / Length (l.position - r.position)) • (l.position - r.position)
    ∧ (roundTripIPD l r).1.orientation = l.orientation
    ∧ (roundTripIPD l r).2.1.orientation = r.orientation
    ∧ (roundTripIPD l r).2.2 = IPDOverride
    ∧ ((roundTripIPD l r).1.position = l.position
        ↔ Length (l.position - r.position) = IPDOverride) := by
  have hvne : l.position - r.position ≠ 0 := position_sub_ne_zero h
  have hdne : Length (l.position - r.position) ≠ 0 :=
    (Length_pos_of_ne_zero hvne).ne'
  have hp : (0 : ℝ) < IPDOverride := by norm_num [IPDOverride]
  refine ⟨?_, roundTripIPD_left_position l r h, roundTripIPD_right_position l r h,
    rfl, rfl, ?_, ?_⟩
  · rw [roundTripIPD_left_position l r h, roundTripIPD_right_position l r h]
    ext <;> simp
  · have e : (roundTripIPD l r).2.2
        = Length ((overrideIPD l r IPDOverride).1.position
            - (overrideIPD l r IPDOverride).2.1.position) := rfl
    rw [e, overrideIPD_sub, Length_smul, Length_normalize hvne, abs_neg,
      abs_of_nonneg hp.le]
    ring
  · rw [roundTripIPD_left_position l r h]
    constructor
    · intro heq
      have hz : ((Length (l.position - r.position) - IPDOverride)
          / Length (l.position - r.position)) • (l.position - r.position) = 0 := by
        ext
        · have hx := congrArg XrVector3f.x heq
          simp at hx
          simpa using hx
        · have hy := congrArg XrVector3f.y heq
          simp at hy
          simpa using hy
        · have hz' := congrArg XrVector3f.z heq
          simp at hz'
          simpa using hz'
      have hs := smul_eq_zero_vec hvne hz
      rcases div_eq_zero_iff.mp hs with h' | h'
      · linarith
      · exact absurd h' hdne
    · intro hdp
      rw [hdp]
      ext <;> simp

/-- Witness for the amended C5 at the sample poses. -/
theorem claim_C5_amended_witness :
    (samplePoseL.position ≠ samplePoseR.position)
    ∧ ((roundTripIPD samplePoseL samplePoseR).1.position
          - (roundTripIPD samplePoseL samplePoseR).2.1.position
        = samplePoseL.position - samplePoseR.position
      ∧ (roundTripIPD samplePoseL samplePoseR).1.position
          = samplePoseL.position
            + ((Length (samplePoseL.position - samplePoseR.position) - IPDOverride)
                / Length (samplePoseL.position - samplePoseR.position))
              • (samplePoseL.position - samplePoseR.position)
      ∧ (roundTripIPD samplePoseL samplePoseR).2.1.position
          = samplePoseR.position
            + ((Length (samplePoseL.position - samplePoseR.position) - IPDOverride)
                / Length (samplePoseL.position - samplePoseR.position))
              • (samplePoseL.position - samplePoseR.position)
      ∧ (roundTripIPD samplePoseL samplePoseR).1.orientation
          = samplePoseL.orientation
      ∧ (roundTripIPD samplePoseL samplePoseR).2.1.orientation
          = samplePoseR.orientation
      ∧ (roundTripIPD samplePoseL samplePoseR).2.2 = IPDOverride
      ∧ ((roundTripIPD samplePoseL samplePoseR).1.position = samplePoseL.position
          ↔ Length (samplePoseL.position - samplePoseR.position) = IPDOverride)) :=
  ⟨samplePose_position_ne,
    claim_C5_amended samplePoseL samplePoseR samplePose_position_ne⟩

end OpenXRLayer
